import Mathlib

/-!
Formal model of the simulation core of "The Salaryman" (two JavaScript
source files: the full game `main.js` and a simplified single-screen
variant).  Numbers are modelled as rationals; the externally maintained
input booleans are a `Keys` record sampled once per tick; the per-frame
`update(dt)` orchestrator, its component update functions, and the data
records they mutate are translated one-to-one from the source.
-/

namespace Salaryman

/-- The three boolean input intents (`keys` object in the source). -/
structure Keys where
  left : Bool
  right : Bool
  jump : Bool
deriving DecidableEq

/-- An axis-aligned box as consumed by `rectsOverlap` (duck-typed
`{x, y, width, height}` in the source). -/
structure Box where
  x : ℚ
  y : ℚ
  width : ℚ
  height : ℚ
deriving DecidableEq

/-- Translation of `rectsOverlap(a, b)` from the source: two boxes overlap unless one is
strictly left/right/above/below the other. -/
def rectsOverlap (a b : Box) : Bool :=
  !(decide (a.x + a.width < b.x) ||
    decide (a.x > b.x + b.width) ||
    decide (a.y + a.height < b.y) ||
    decide (a.y > b.y + b.height))

/-- The `world` object of `main.js`. -/
structure World where
  width : ℚ

def world : World := ⟨3000⟩

def gravity : ℚ := 2000

def groundHeight : ℚ := 80

def burnoutMax : ℚ := 100

def rent : ℚ := 120

/-- The `player` record (the fields the source ever reads or writes). -/
structure Player where
  x : ℚ
  y : ℚ
  width : ℚ
  height : ℚ
  vx : ℚ
  vy : ℚ
  speed : ℚ
  jumpForce : ℚ
  onGround : Bool
deriving DecidableEq

def Player.toBox (p : Player) : Box := ⟨p.x, p.y, p.width, p.height⟩

/-- A consumable pickup record (`coffee`, entries of `moneyPickups`). -/
structure Pickup where
  x : ℚ
  y : ℚ
  width : ℚ
  height : ℚ
  collected : Bool
deriving DecidableEq

def Pickup.toBox (m : Pickup) : Box := ⟨m.x, m.y, m.width, m.height⟩

/-- The `hrDrone` record. -/
structure Hazard where
  x : ℚ
  y : ℚ
  width : ℚ
  height : ℚ
  vx : ℚ
  leftBound : ℚ
  rightBound : ℚ
deriving DecidableEq

def Hazard.toBox (h : Hazard) : Box := ⟨h.x, h.y, h.width, h.height⟩

/-- A dialog popup: `{text, time}` pushed by `showMessage`. -/
structure Msg where
  text : String
  time : ℚ
deriving DecidableEq

/-- The whole mutable module state of `main.js`. -/
structure GameState where
  player : Player
  coffee : Pickup
  moneyPickups : List Pickup
  hrDrone : Hazard
  burnout : ℚ
  invincibleTimer : ℚ
  credits : ℚ
  messages : List Msg
  gameOver : Bool
  gameOverReason : String
  cameraX : ℚ

/-- Source `showMessage(text)`: append `{text, time: 7}` to the message list. -/
def showMessage (text : String) (s : GameState) : GameState :=
  { s with messages := s.messages ++ [⟨text, 7⟩] }

/-- Source `triggerGameOver(reason)`. -/
def triggerGameOver (reason : String) (s : GameState) : GameState :=
  showMessage "Game over. Refresh the page to try again."
    { s with gameOver := true, gameOverReason := reason }

/-- The body of `updatePlayer` acting on the player record (horizontal
input, jump, gravity, integration, world clamp, ground collision), with
`H` the canvas height. -/
def stepPlayer (H dt : ℚ) (k : Keys) (p : Player) : Player :=
  let vx0 : ℚ := 0
  let vx1 : ℚ := if k.left then -p.speed else vx0
  let vx2 : ℚ := if k.right then p.speed else vx1
  let vy0 : ℚ := if k.jump && p.onGround then p.jumpForce else p.vy
  let og0 : Bool := if k.jump && p.onGround then false else p.onGround
  let vy1 : ℚ := vy0 + gravity * dt
  let x0 : ℚ := p.x + vx2 * dt
  let y0 : ℚ := p.y + vy1 * dt
  let x1 : ℚ := if x0 < 0 then 0 else x0
  let x2 : ℚ := if x1 + p.width > world.width then world.width - p.width else x1
  let floorY : ℚ := H - groundHeight - p.height
  if y0 > floorY then
    { p with x := x2, y := floorY, vx := vx2, vy := 0, onGround := true }
  else
    { p with x := x2, y := y0, vx := vx2, vy := vy1, onGround := og0 }

/-- Source `updatePlayer(dt)`: no-op when game over, else step the player. -/
def updatePlayer (H dt : ℚ) (k : Keys) (s : GameState) : GameState :=
  if s.gameOver then s
  else { s with player := stepPlayer H dt k s.player }

/-- The camera clamp of `updateCamera`, with `W` the canvas width. -/
def cameraOf (W : ℚ) (p : Player) : ℚ :=
  let c0 : ℚ := p.x + p.width / 2 - W / 2
  let c1 : ℚ := if c0 < 0 then 0 else c0
  if c1 > world.width - W then world.width - W else c1

/-- Source `updateCamera()`. -/
def updateCamera (W : ℚ) (s : GameState) : GameState :=
  { s with cameraX := cameraOf W s.player }

/-- The patrol-motion half of `updateHRDrone`: advance by `vx*dt`, bounce
off `leftBound` and `rightBound`. -/
def moveDrone (dt : ℚ) (h : Hazard) : Hazard :=
  let x0 : ℚ := h.x + h.vx * dt
  let x1 : ℚ := if x0 < h.leftBound then h.leftBound else x0
  let v1 : ℚ := if x0 < h.leftBound then -h.vx else h.vx
  let x2 : ℚ := if x1 + h.width > h.rightBound then h.rightBound - h.width else x1
  let v2 : ℚ := if x1 + h.width > h.rightBound then -v1 else v1
  { h with x := x2, vx := v2 }

/-- Source `updateHRDrone(dt)`: no-op when game over; else move the drone, then
(if overlapping the player and no grace is active) apply damage, post a
message, and trigger game over when `burnout` reaches the maximum. -/
def updateHRDrone (dt : ℚ) (s : GameState) : GameState :=
  if s.gameOver then s
  else
    let s1 := { s with hrDrone := moveDrone dt s.hrDrone }
    if !s1.gameOver && rectsOverlap s1.player.toBox s1.hrDrone.toBox then
      if s1.invincibleTimer ≤ 0 then
        let s2 := { s1 with burnout := s1.burnout + 25, invincibleTimer := 1 }
        let s3 := showMessage "HR Drone: unauthorized happiness detected." s2
        if s3.burnout ≥ burnoutMax then
          triggerGameOver "Burnout: you finally quit your job."
            { s3 with burnout := burnoutMax }
        else s3
      else s1
    else s1

/-- The text of a credit-pickup message (`+20 credits (total: c)`). -/
def creditMsg (c : ℚ) : String :=
  "+20 credits (total: " ++ toString c ++ ")"

/-- The `for (const m of moneyPickups)` loop of `updatePickups`, threading
the credits counter and the message list through the list of pickups. -/
def collectMoney (pbox : Box) :
    List Pickup → ℚ → List Msg → List Pickup × ℚ × List Msg
  | [], credits, msgs => ([], credits, msgs)
  | m :: rest, credits, msgs =>
    if !m.collected && rectsOverlap pbox m.toBox then
      let credits1 := credits + 20
      let msgs1 := msgs ++ [⟨creditMsg credits1, 7⟩]
      let r := collectMoney pbox rest credits1 msgs1
      ({ m with collected := true } :: r.1, r.2.1, r.2.2)
    else
      let r := collectMoney pbox rest credits msgs
      (m :: r.1, r.2.1, r.2.2)

/-- Source `updatePickups(dt)`: coffee check, then the money-pickup loop.  Note
the source has no game-over guard here. -/
def updatePickups (s : GameState) : GameState :=
  let s1 :=
    if !s.coffee.collected && rectsOverlap s.player.toBox s.coffee.toBox then
      showMessage "Coffee acquired: +5 morale (pure placebo)."
        { s with coffee := { s.coffee with collected := true } }
    else s
  let r := collectMoney s1.player.toBox s1.moneyPickups s1.credits s1.messages
  { s1 with moneyPickups := r.1, credits := r.2.1, messages := r.2.2 }

/-- The body of `updateMessages(dt)` on the message list: decrement every
`time` by `dt`, then remove (preserving order) every expired message. -/
def stepMessages (dt : ℚ) (msgs : List Msg) : List Msg :=
  (msgs.map fun m => { m with time := m.time - dt }).filter
    fun m => !decide (m.time ≤ 0)

/-- Source `updateMessages(dt)`. -/
def updateMessages (dt : ℚ) (s : GameState) : GameState :=
  { s with messages := stepMessages dt s.messages }

/-- Source `updateTimers(dt)`: count the invincibility grace down. -/
def updateTimers (dt : ℚ) (s : GameState) : GameState :=
  if s.invincibleTimer > 0 then
    { s with invincibleTimer := s.invincibleTimer - dt }
  else s

/-- Source `update(dt)`: the frame orchestrator.  When running: player, drone,
pickups, timers, camera; when game over: camera only.  Messages decay
unconditionally. -/
def update (H W dt : ℚ) (k : Keys) (s : GameState) : GameState :=
  let s1 :=
    if !s.gameOver then
      updateCamera W (updateTimers dt (updatePickups
        (updateHRDrone dt (updatePlayer H dt k s))))
    else
      updateCamera W s
  updateMessages dt s1

/-- A finite sequence of ticks, each with its own `dt` and sampled keys. -/
def updates (H W : ℚ) : List (ℚ × Keys) → GameState → GameState
  | [], s => s
  | t :: ts, s => updates H W ts (update H W t.1 t.2 s)

/-- The player/hazard overlap as evaluated at the collision check inside
`updateHRDrone` of a tick starting from `s`: the player has already been
stepped by `updatePlayer` and the drone by its patrol motion. -/
def tickCheckOverlap (H dt : ℚ) (k : Keys) (s : GameState) : Bool :=
  rectsOverlap (stepPlayer H dt k s.player).toBox
    (moveDrone dt s.hrDrone).toBox

/-- Initial `player` of `main.js` (`H` the canvas height). -/
def initPlayer (H : ℚ) : Player :=
  ⟨200, H - groundHeight - 96, 64, 96, 0, 0, 350, -750, true⟩

/-- Initial `coffee` of `main.js`. -/
def initCoffee (H : ℚ) : Pickup :=
  ⟨450, H - groundHeight - 48, 32, 48, false⟩

/-- Initial `moneyPickups` of `main.js`. -/
def initMoney (H : ℚ) : List Pickup :=
  [⟨700, H - groundHeight - 40, 32, 32, false⟩,
   ⟨1200, H - groundHeight - 40, 32, 32, false⟩,
   ⟨1800, H - groundHeight - 40, 32, 32, false⟩]

/-- Initial `hrDrone` of `main.js`. -/
def initHRDrone (H : ℚ) : Hazard :=
  ⟨1000, H - groundHeight - 160, 48, 48, 120, 950, 1250⟩

/-- The whole initial module state of `main.js`. -/
def initState (H : ℚ) : GameState :=
  { player := initPlayer H
    coffee := initCoffee H
    moneyPickups := initMoney H
    hrDrone := initHRDrone H
    burnout := 0
    invincibleTimer := 0
    credits := 0
    messages := []
    gameOver := false
    gameOverReason := ""
    cameraX := 0 }

end Salaryman

namespace Simple

open Salaryman (Keys Box Player Pickup rectsOverlap)

/-- Gravity constant of the simplified variant. -/
def gravity : ℚ := 2000

/-- Ground-band thickness of the simplified variant. -/
def groundHeight : ℚ := 80

/-- Mutable state of the simplified variant: the player and the single
coffee pickup (its world is one screen of width `W`). -/
structure State where
  player : Player
  coffee : Pickup

/-- The player part of the simplified variant update: identical
input/jump/gravity/integration, then ground collision, then a clamp to
the screen `[0, W - width]` (clamp after ground collision, unlike the
full variant which clamps to the world before it). -/
def stepPlayer (W H dt : ℚ) (k : Keys) (p : Player) : Player :=
  let vx0 : ℚ := 0
  let vx1 : ℚ := if k.left then -p.speed else vx0
  let vx2 : ℚ := if k.right then p.speed else vx1
  let vy0 : ℚ := if k.jump && p.onGround then p.jumpForce else p.vy
  let og0 : Bool := if k.jump && p.onGround then false else p.onGround
  let vy1 : ℚ := vy0 + gravity * dt
  let x0 : ℚ := p.x + vx2 * dt
  let y0 : ℚ := p.y + vy1 * dt
  let floorY : ℚ := H - groundHeight - p.height
  let p1 : Player :=
    if y0 > floorY then
      { p with x := x0, y := floorY, vx := vx2, vy := 0, onGround := true }
    else
      { p with x := x0, y := y0, vx := vx2, vy := vy1, onGround := og0 }
  let x1 : ℚ := if p1.x < 0 then 0 else p1.x
  let x2 : ℚ := if x1 + p1.width > W then W - p1.width else x1
  { p1 with x := x2 }

/-- The simplified variant `update(dt)`: step the player, then the
coffee collision (no message feed, no game-over state). -/
def update (W H dt : ℚ) (k : Keys) (s : State) : State :=
  let p1 := stepPlayer W H dt k s.player
  let c1 :=
    if !s.coffee.collected && rectsOverlap p1.toBox s.coffee.toBox then
      { s.coffee with collected := true }
    else s.coffee
  { player := p1, coffee := c1 }

end Simple

namespace Salaryman

def noKeys : Keys := ⟨false, false, false⟩

/-- A game-over state used to instantiate the frozen-world theorems: the
player stands on the coffee pickup and on an uncollected credit pickup,
but the game has already ended. -/
def overlapOverState : GameState :=
  { player := ⟨450, 424, 64, 96, 0, 0, 350, -750, true⟩
    coffee := ⟨450, 472, 32, 48, false⟩
    moneyPickups := [⟨450, 480, 32, 32, false⟩]
    hrDrone := ⟨1000, 360, 48, 48, 120, 950, 1250⟩
    burnout := 100
    invincibleTimer := 0
    credits := 0
    messages := []
    gameOver := true
    gameOverReason := "Burnout: you finally quit your job."
    cameraX := 0 }

/-- A running state one hit away from burnout: the next patrol step of
the drone lands on the player. -/
def killState : GameState :=
  { player := ⟨1150, 424, 64, 96, 0, 0, 350, -750, true⟩
    coffee := ⟨450, 472, 32, 48, true⟩
    moneyPickups := []
    hrDrone := ⟨1090, 424, 48, 48, 120, 950, 1250⟩
    burnout := 75
    invincibleTimer := 0
    credits := 0
    messages := []
    gameOver := false
    gameOverReason := ""
    cameraX := 0 }

/-- Like `killState` but with `burnout = 0`: the drone patrols across
the player for three ticks of `dt = 0.5`, bouncing off its right bound
in between. -/
def rateState : GameState :=
  { player := ⟨1150, 424, 64, 96, 0, 0, 350, -750, true⟩
    coffee := ⟨450, 472, 32, 48, true⟩
    moneyPickups := []
    hrDrone := ⟨1090, 424, 48, 48, 120, 950, 1250⟩
    burnout := 0
    invincibleTimer := 0
    credits := 0
    messages := []
    gameOver := false
    gameOverReason := ""
    cameraX := 0 }

/-- Concrete simplified-variant state sharing the initial vertical
fields of the player of the full game. -/
def simpleDemo : Simple.State :=
  { player := ⟨400, 424, 64, 96, 0, 0, 350, -750, true⟩
    coffee := ⟨600, 472, 32, 48, false⟩ }

/-- Iterated message decay over a sequence of tick `dt`s. -/
def iterMessages : List ℚ → List Msg → List Msg
  | [], ms => ms
  | d :: ds, ms => iterMessages ds (stepMessages d ms)

end Salaryman

namespace Salaryman

section Helpers

variable (H W dt : ℚ) (k : Keys) (s : GameState)

@[simp] lemma showMessage_player (t : String) : (showMessage t s).player = s.player := rfl
@[simp] lemma showMessage_coffee (t : String) : (showMessage t s).coffee = s.coffee := rfl
@[simp] lemma showMessage_money (t : String) : (showMessage t s).moneyPickups = s.moneyPickups := rfl
@[simp] lemma showMessage_hrDrone (t : String) : (showMessage t s).hrDrone = s.hrDrone := rfl
@[simp] lemma showMessage_burnout (t : String) : (showMessage t s).burnout = s.burnout := rfl
@[simp] lemma showMessage_invincibleTimer (t : String) : (showMessage t s).invincibleTimer = s.invincibleTimer := rfl
@[simp] lemma showMessage_credits (t : String) : (showMessage t s).credits = s.credits := rfl
@[simp] lemma showMessage_gameOver (t : String) : (showMessage t s).gameOver = s.gameOver := rfl
@[simp] lemma showMessage_cameraX (t : String) : (showMessage t s).cameraX = s.cameraX := rfl

lemma updatePlayer_eq (h : s.gameOver = false) :
    updatePlayer H dt k s = { s with player := stepPlayer H dt k s.player } := by
  simp [updatePlayer, h]

@[simp] lemma updatePlayer_coffee : (updatePlayer H dt k s).coffee = s.coffee := by
  unfold updatePlayer; split <;> rfl
@[simp] lemma updatePlayer_money : (updatePlayer H dt k s).moneyPickups = s.moneyPickups := by
  unfold updatePlayer; split <;> rfl
@[simp] lemma updatePlayer_hrDrone : (updatePlayer H dt k s).hrDrone = s.hrDrone := by
  unfold updatePlayer; split <;> rfl
@[simp] lemma updatePlayer_burnout : (updatePlayer H dt k s).burnout = s.burnout := by
  unfold updatePlayer; split <;> rfl
@[simp] lemma updatePlayer_invincibleTimer : (updatePlayer H dt k s).invincibleTimer = s.invincibleTimer := by
  unfold updatePlayer; split <;> rfl
@[simp] lemma updatePlayer_credits : (updatePlayer H dt k s).credits = s.credits := by
  unfold updatePlayer; split <;> rfl
@[simp] lemma updatePlayer_gameOver : (updatePlayer H dt k s).gameOver = s.gameOver := by
  unfold updatePlayer; split <;> rfl
@[simp] lemma updatePlayer_messages : (updatePlayer H dt k s).messages = s.messages := by
  unfold updatePlayer; split <;> rfl

@[simp] lemma updateHRDrone_player : (updateHRDrone dt s).player = s.player := by
  unfold updateHRDrone
  split
  · rfl
  · dsimp only
    split_ifs <;> rfl
@[simp] lemma updateHRDrone_coffee : (updateHRDrone dt s).coffee = s.coffee := by
  unfold updateHRDrone
  split
  · rfl
  · dsimp only
    split_ifs <;> rfl
@[simp] lemma updateHRDrone_money : (updateHRDrone dt s).moneyPickups = s.moneyPickups := by
  unfold updateHRDrone
  split
  · rfl
  · dsimp only
    split_ifs <;> rfl
@[simp] lemma updateHRDrone_credits : (updateHRDrone dt s).credits = s.credits := by
  unfold updateHRDrone
  split
  · rfl
  · dsimp only
    split_ifs <;> rfl
@[simp] lemma updateHRDrone_cameraX : (updateHRDrone dt s).cameraX = s.cameraX := by
  unfold updateHRDrone
  split
  · rfl
  · dsimp only
    split_ifs <;> rfl

@[simp] lemma updatePickups_player : (updatePickups s).player = s.player := by
  unfold updatePickups; split <;> rfl
@[simp] lemma updatePickups_hrDrone : (updatePickups s).hrDrone = s.hrDrone := by
  unfold updatePickups; split <;> rfl
@[simp] lemma updatePickups_burnout : (updatePickups s).burnout = s.burnout := by
  unfold updatePickups; split <;> rfl
@[simp] lemma updatePickups_invincibleTimer : (updatePickups s).invincibleTimer = s.invincibleTimer := by
  unfold updatePickups; split <;> rfl
@[simp] lemma updatePickups_gameOver : (updatePickups s).gameOver = s.gameOver := by
  unfold updatePickups; split <;> rfl
@[simp] lemma updatePickups_cameraX : (updatePickups s).cameraX = s.cameraX := by
  unfold updatePickups; split <;> rfl

@[simp] lemma updateTimers_player : (updateTimers dt s).player = s.player := by
  unfold updateTimers; split <;> rfl
@[simp] lemma updateTimers_coffee : (updateTimers dt s).coffee = s.coffee := by
  unfold updateTimers; split <;> rfl
@[simp] lemma updateTimers_money : (updateTimers dt s).moneyPickups = s.moneyPickups := by
  unfold updateTimers; split <;> rfl
@[simp] lemma updateTimers_hrDrone : (updateTimers dt s).hrDrone = s.hrDrone := by
  unfold updateTimers; split <;> rfl
@[simp] lemma updateTimers_burnout : (updateTimers dt s).burnout = s.burnout := by
  unfold updateTimers; split <;> rfl
@[simp] lemma updateTimers_credits : (updateTimers dt s).credits = s.credits := by
  unfold updateTimers; split <;> rfl
@[simp] lemma updateTimers_gameOver : (updateTimers dt s).gameOver = s.gameOver := by
  unfold updateTimers; split <;> rfl
@[simp] lemma updateTimers_messages : (updateTimers dt s).messages = s.messages := by
  unfold updateTimers; split <;> rfl
@[simp] lemma updateTimers_cameraX : (updateTimers dt s).cameraX = s.cameraX := by
  unfold updateTimers; split <;> rfl

@[simp] lemma updateCamera_player : (updateCamera W s).player = s.player := rfl
@[simp] lemma updateCamera_coffee : (updateCamera W s).coffee = s.coffee := rfl
@[simp] lemma updateCamera_money : (updateCamera W s).moneyPickups = s.moneyPickups := rfl
@[simp] lemma updateCamera_hrDrone : (updateCamera W s).hrDrone = s.hrDrone := rfl
@[simp] lemma updateCamera_burnout : (updateCamera W s).burnout = s.burnout := rfl
@[simp] lemma updateCamera_invincibleTimer : (updateCamera W s).invincibleTimer = s.invincibleTimer := rfl
@[simp] lemma updateCamera_credits : (updateCamera W s).credits = s.credits := rfl
@[simp] lemma updateCamera_gameOver : (updateCamera W s).gameOver = s.gameOver := rfl
@[simp] lemma updateCamera_messages : (updateCamera W s).messages = s.messages := rfl
@[simp] lemma updateCamera_cameraX : (updateCamera W s).cameraX = cameraOf W s.player := rfl

@[simp] lemma updateMessages_player : (updateMessages dt s).player = s.player := rfl
@[simp] lemma updateMessages_coffee : (updateMessages dt s).coffee = s.coffee := rfl
@[simp] lemma updateMessages_money : (updateMessages dt s).moneyPickups = s.moneyPickups := rfl
@[simp] lemma updateMessages_hrDrone : (updateMessages dt s).hrDrone = s.hrDrone := rfl
@[simp] lemma updateMessages_burnout : (updateMessages dt s).burnout = s.burnout := rfl
@[simp] lemma updateMessages_invincibleTimer : (updateMessages dt s).invincibleTimer = s.invincibleTimer := rfl
@[simp] lemma updateMessages_credits : (updateMessages dt s).credits = s.credits := rfl
@[simp] lemma updateMessages_gameOver : (updateMessages dt s).gameOver = s.gameOver := rfl
@[simp] lemma updateMessages_cameraX : (updateMessages dt s).cameraX = s.cameraX := rfl
@[simp] lemma updateMessages_messages : (updateMessages dt s).messages = stepMessages dt s.messages := rfl

lemma update_frozen (h : s.gameOver = true) :
    update H W dt k s = updateMessages dt (updateCamera W s) := by
  simp [update, h]

lemma update_player_eq (h : s.gameOver = false) :
    (update H W dt k s).player = stepPlayer H dt k s.player := by
  simp [update, h, updatePlayer_eq]

lemma updateHRDrone_hrDrone (h : s.gameOver = false) :
    (updateHRDrone dt s).hrDrone = moveDrone dt s.hrDrone := by
  unfold updateHRDrone
  rw [h]
  simp only [Bool.false_eq_true, if_false]
  split_ifs <;> rfl

lemma update_hrDrone_eq (h : s.gameOver = false) :
    (update H W dt k s).hrDrone = moveDrone dt s.hrDrone := by
  simp only [update, h, Bool.not_false, if_true, updateMessages_hrDrone,
    updateCamera_hrDrone, updateTimers_hrDrone, updatePickups_hrDrone]
  rw [updatePlayer_eq _ _ _ _ h]
  rw [show ({ s with player := stepPlayer H dt k s.player } : GameState).hrDrone
        = s.hrDrone from rfl] at *
  exact updateHRDrone_hrDrone dt { s with player := stepPlayer H dt k s.player } h

end Helpers

end Salaryman

namespace Salaryman

lemma collectMoney_fst (pbox : Box) (ms : List Pickup) (c : ℚ) (msgs : List Msg) :
    (collectMoney pbox ms c msgs).1 =
      ms.map fun m =>
        if !m.collected && rectsOverlap pbox m.toBox
        then { m with collected := true } else m := by
  induction ms generalizing c msgs with
  | nil => rfl
  | cons m rest ih =>
    unfold collectMoney
    dsimp only
    split
    · rename_i hcond
      simp only [List.map_cons, if_pos hcond, ih]
    · rename_i hcond
      simp only [List.map_cons, if_neg hcond, ih]

lemma collectMoney_credits (pbox : Box) (ms : List Pickup) (c : ℚ) (msgs : List Msg) :
    (collectMoney pbox ms c msgs).2.1 =
      c + 20 * ((ms.filter fun m =>
        !m.collected && rectsOverlap pbox m.toBox).length : ℚ) := by
  induction ms generalizing c msgs with
  | nil => simp [collectMoney]
  | cons m rest ih =>
    unfold collectMoney
    dsimp only
    split
    · rename_i hcond
      rw [ih]
      simp only [List.filter_cons, hcond, if_pos, List.length_cons]
      push_cast
      ring
    · rename_i hcond
      rw [ih]
      simp only [List.filter_cons]
      rw [if_neg (by simpa using hcond)]

lemma collectMoney_msgs_len (pbox : Box) (ms : List Pickup) (c : ℚ) (msgs : List Msg) :
    (collectMoney pbox ms c msgs).2.2.length =
      msgs.length + (ms.filter fun m =>
        !m.collected && rectsOverlap pbox m.toBox).length := by
  induction ms generalizing c msgs with
  | nil => simp [collectMoney]
  | cons m rest ih =>
    unfold collectMoney
    dsimp only
    split
    · rename_i hcond
      rw [ih]
      simp only [List.filter_cons, hcond, if_pos, List.length_cons,
        List.length_append, List.length_cons, List.length_nil]
      omega
    · rename_i hcond
      rw [ih]
      simp only [List.filter_cons]
      rw [if_neg (by simpa using hcond)]

lemma updatePickups_coffee_collected (s : GameState) :
    (updatePickups s).coffee.collected =
      (s.coffee.collected || rectsOverlap s.player.toBox s.coffee.toBox) := by
  cases hc : s.coffee.collected <;>
    cases ho : rectsOverlap s.player.toBox s.coffee.toBox <;>
      simp [updatePickups, hc, ho, showMessage]

lemma updatePickups_money_eq (s : GameState) :
    (updatePickups s).moneyPickups =
      s.moneyPickups.map fun m =>
        if !m.collected && rectsOverlap s.player.toBox m.toBox
        then { m with collected := true } else m := by
  unfold updatePickups
  dsimp only
  split <;> simp [collectMoney_fst, showMessage]

lemma updatePickups_credits_eq (s : GameState) :
    (updatePickups s).credits =
      s.credits + 20 * ((s.moneyPickups.filter fun m =>
        !m.collected && rectsOverlap s.player.toBox m.toBox).length : ℚ) := by
  unfold updatePickups
  dsimp only
  split <;> simp [collectMoney_credits, showMessage]

lemma updatePickups_msgs_len (s : GameState) :
    (updatePickups s).messages.length =
      s.messages.length +
        ((if !s.coffee.collected && rectsOverlap s.player.toBox s.coffee.toBox
          then 1 else 0) +
        (s.moneyPickups.filter fun m =>
          !m.collected && rectsOverlap s.player.toBox m.toBox).length) := by
  unfold updatePickups
  dsimp only
  split
  · rename_i hcond
    simp [collectMoney_msgs_len, showMessage, if_pos hcond]
    omega
  · rename_i hcond
    simp [collectMoney_msgs_len, showMessage, if_neg hcond]

end Salaryman

namespace Salaryman

/-- Claim C1 counterexample: in a GameOver state whose player overlaps the
uncollected coffee and an uncollected credit pickup, a tick leaves both
uncollected and the credits untouched — the pickup checks do NOT run
regardless of game state. -/
theorem pickups_gameover_counterexample :
    rectsOverlap overlapOverState.player.toBox overlapOverState.coffee.toBox = true ∧
    overlapOverState.coffee.collected = false ∧
    overlapOverState.gameOver = true ∧
    (update 600 800 (1/60) noKeys overlapOverState).coffee.collected = false ∧
    (update 600 800 (1/60) noKeys overlapOverState).moneyPickups =
      [⟨450, 480, 32, 32, false⟩] ∧
    (update 600 800 (1/60) noKeys overlapOverState).credits = 0 := by
  refine ⟨?_, rfl, rfl, ?_, ?_, ?_⟩
  · norm_num [rectsOverlap, overlapOverState, Player.toBox, Pickup.toBox]
  all_goals
    rw [update_frozen 600 800 (1/60) noKeys overlapOverState rfl]
    simp [overlapOverState]

/-- Claim C1 (amended): the pickup checks run only on ticks that begin
with the game running.  On a GameOver tick the collected flags and the
credits are unchanged; on a running tick an uncollected pickup that
overlaps the player box at the check is marked collected, each newly
collected credit pickup adds 20 credits, and one message is posted per
newly collected pickup. -/
theorem pickups_gated_by_gameover (H W dt : ℚ) (k : Keys) (s : GameState) :
    (s.gameOver = true →
      (update H W dt k s).coffee = s.coffee ∧
      (update H W dt k s).moneyPickups = s.moneyPickups ∧
      (update H W dt k s).credits = s.credits) ∧
    (s.gameOver = false →
      ((update H W dt k s).coffee.collected =
        (s.coffee.collected ||
          rectsOverlap (stepPlayer H dt k s.player).toBox s.coffee.toBox)) ∧
      ((update H W dt k s).moneyPickups =
        s.moneyPickups.map fun m =>
          if !m.collected && rectsOverlap (stepPlayer H dt k s.player).toBox m.toBox
          then { m with collected := true } else m) ∧
      ((update H W dt k s).credits = s.credits +
        20 * ((s.moneyPickups.filter fun m =>
          !m.collected &&
            rectsOverlap (stepPlayer H dt k s.player).toBox m.toBox).length : ℚ)) ∧
      ((updatePickups (updateHRDrone dt (updatePlayer H dt k s))).messages.length =
        (updateHRDrone dt (updatePlayer H dt k s)).messages.length +
        ((if !s.coffee.collected &&
            rectsOverlap (stepPlayer H dt k s.player).toBox s.coffee.toBox
          then 1 else 0) +
        (s.moneyPickups.filter fun m =>
          !m.collected &&
            rectsOverlap (stepPlayer H dt k s.player).toBox m.toBox).length))) := by
  constructor
  · intro h
    rw [update_frozen H W dt k s h]
    simp
  · intro h
    have hs2p : (updateHRDrone dt (updatePlayer H dt k s)).player =
        stepPlayer H dt k s.player := by
      rw [updatePlayer_eq H dt k s h]; simp
    have hs2c : (updateHRDrone dt (updatePlayer H dt k s)).coffee = s.coffee := by
      simp
    have hs2m : (updateHRDrone dt (updatePlayer H dt k s)).moneyPickups =
        s.moneyPickups := by simp
    have hs2cr : (updateHRDrone dt (updatePlayer H dt k s)).credits = s.credits := by
      simp
    have hupd : update H W dt k s =
        updateMessages dt (updateCamera W (updateTimers dt
          (updatePickups (updateHRDrone dt (updatePlayer H dt k s))))) := by
      simp [update, h]
    refine ⟨?_, ?_, ?_, ?_⟩
    · rw [hupd]
      simp only [updateMessages_coffee, updateCamera_coffee, updateTimers_coffee]
      rw [updatePickups_coffee_collected, hs2p, hs2c]
    · rw [hupd]
      simp only [updateMessages_money, updateCamera_money, updateTimers_money]
      rw [updatePickups_money_eq, hs2p, hs2m]
    · rw [hupd]
      simp only [updateMessages_credits, updateCamera_credits, updateTimers_credits]
      rw [updatePickups_credits_eq, hs2p, hs2m, hs2cr]
    · rw [updatePickups_msgs_len, hs2p, hs2c, hs2m]

/-- Instantiation of the amended claim C1 at a concrete GameOver tick. -/
theorem pickups_gated_by_gameover_witness :
    overlapOverState.gameOver = true ∧
    ((update 600 800 (1/30) noKeys overlapOverState).coffee = overlapOverState.coffee ∧
     (update 600 800 (1/30) noKeys overlapOverState).moneyPickups =
       overlapOverState.moneyPickups ∧
     (update 600 800 (1/30) noKeys overlapOverState).credits =
       overlapOverState.credits) :=
  ⟨rfl, (pickups_gated_by_gameover 600 800 (1/30) noKeys overlapOverState).1 rfl⟩

/-- Claim C2: a tick executed in the GameOver state leaves the player,
the hazard, the pickups, burnout, credits and the invincibility timer
unchanged; only the camera offset is recomputed and the message feed is
decremented and pruned. -/
theorem gameover_tick_freezes_world (H W dt : ℚ) (k : Keys) (s : GameState)
    (h : s.gameOver = true) :
    (update H W dt k s).player = s.player ∧
    (update H W dt k s).hrDrone = s.hrDrone ∧
    (update H W dt k s).coffee = s.coffee ∧
    (update H W dt k s).moneyPickups = s.moneyPickups ∧
    (update H W dt k s).burnout = s.burnout ∧
    (update H W dt k s).credits = s.credits ∧
    (update H W dt k s).invincibleTimer = s.invincibleTimer ∧
    (update H W dt k s).cameraX = cameraOf W s.player ∧
    (update H W dt k s).messages = stepMessages dt s.messages := by
  rw [update_frozen H W dt k s h]
  simp

/-- Instantiation of claim C2 at a concrete GameOver state. -/
theorem gameover_tick_freezes_world_witness :
    overlapOverState.gameOver = true ∧
    ((update 600 800 (1/60) noKeys overlapOverState).player = overlapOverState.player ∧
     (update 600 800 (1/60) noKeys overlapOverState).hrDrone = overlapOverState.hrDrone ∧
     (update 600 800 (1/60) noKeys overlapOverState).coffee = overlapOverState.coffee ∧
     (update 600 800 (1/60) noKeys overlapOverState).moneyPickups =
       overlapOverState.moneyPickups ∧
     (update 600 800 (1/60) noKeys overlapOverState).burnout = overlapOverState.burnout ∧
     (update 600 800 (1/60) noKeys overlapOverState).credits = overlapOverState.credits ∧
     (update 600 800 (1/60) noKeys overlapOverState).invincibleTimer =
       overlapOverState.invincibleTimer ∧
     (update 600 800 (1/60) noKeys overlapOverState).cameraX =
       cameraOf 800 overlapOverState.player ∧
     (update 600 800 (1/60) noKeys overlapOverState).messages =
       stepMessages (1/60) overlapOverState.messages) :=
  ⟨rfl, gameover_tick_freezes_world 600 800 (1/60) noKeys overlapOverState rfl⟩

/-- Claim C7: exact edge contact (a right edge meeting a left edge while
the vertical extents intersect, or a bottom edge meeting a top edge while
the horizontal extents intersect) counts as overlap. -/
theorem edge_contact_overlaps (a b : Box)
    (haw : 0 ≤ a.width) (hbw : 0 ≤ b.width) (hah : 0 ≤ a.height) (hbh : 0 ≤ b.height) :
    (a.x + a.width = b.x → b.y ≤ a.y + a.height → a.y ≤ b.y + b.height →
      rectsOverlap a b = true) ∧
    (a.y + a.height = b.y → b.x ≤ a.x + a.width → a.x ≤ b.x + b.width →
      rectsOverlap a b = true) := by
  constructor <;> intro h1 h2 h3 <;>
    simp only [rectsOverlap, Bool.not_eq_true', Bool.or_eq_false_iff,
      decide_eq_false_iff_not, not_lt] <;>
    repeat' apply And.intro
  all_goals linarith

/-- Instantiation of claim C7: two concrete boxes in exact edge contact
register as colliding. -/
theorem edge_contact_overlaps_witness :
    rectsOverlap ⟨0, 0, 10, 10⟩ ⟨10, 5, 10, 10⟩ = true :=
  (edge_contact_overlaps ⟨0, 0, 10, 10⟩ ⟨10, 5, 10, 10⟩
    (by norm_num) (by norm_num) (by norm_num) (by norm_num)).1
    (by norm_num) (by norm_num) (by norm_num)

/-- Claim C8: on a running tick the horizontal velocity of the player is reset
and re-derived from the sampled intents: `+speed` whenever `right` is
held (right wins when both are held), `-speed` when only `left` is held,
`0` when neither is held. -/
theorem horizontal_velocity_rule (H W dt : ℚ) (k : Keys) (s : GameState)
    (h : s.gameOver = false) :
    (update H W dt k s).player.vx =
      if k.right then s.player.speed
      else if k.left then -s.player.speed else 0 := by
  rw [update_player_eq H W dt k s h]
  unfold stepPlayer
  dsimp only
  split_ifs <;> rfl

/-- Instantiation of claim C8 with both `left` and `right` held: right
wins and `vx = +speed = 350`. -/
theorem horizontal_velocity_rule_witness :
    (initState 600).gameOver = false ∧
    (update 600 800 (1/60) ⟨true, true, false⟩ (initState 600)).player.vx = 350 := by
  refine ⟨rfl, ?_⟩
  rw [horizontal_velocity_rule 600 800 (1/60) ⟨true, true, false⟩ (initState 600) rfl]
  norm_num [initState, initPlayer]

end Salaryman

namespace Salaryman

section DroneBranches

variable (H W dt : ℚ) (k : Keys) (s : GameState)

lemma updateHRDrone_eq_of_no_overlap (h : s.gameOver = false)
    (ho : rectsOverlap s.player.toBox (moveDrone dt s.hrDrone).toBox = false) :
    updateHRDrone dt s = { s with hrDrone := moveDrone dt s.hrDrone } := by
  unfold updateHRDrone
  rw [h]
  simp only [Bool.false_eq_true, if_false]
  rw [if_neg]
  simp only [h, ho, Bool.not_false, Bool.and_false, Bool.false_eq_true,
    not_false_eq_true]

lemma updateHRDrone_eq_of_grace (h : s.gameOver = false)
    (ht : 0 < s.invincibleTimer) :
    updateHRDrone dt s = { s with hrDrone := moveDrone dt s.hrDrone } := by
  unfold updateHRDrone
  rw [h]
  simp only [Bool.false_eq_true, if_false]
  split
  · rw [if_neg (by simp only [not_le]; exact ht)]
  · rfl

lemma updateHRDrone_eq_of_damage (h : s.gameOver = false)
    (ho : rectsOverlap s.player.toBox (moveDrone dt s.hrDrone).toBox = true)
    (ht : s.invincibleTimer ≤ 0) (hb : s.burnout + 25 < burnoutMax) :
    updateHRDrone dt s =
      { s with
        hrDrone := moveDrone dt s.hrDrone
        burnout := s.burnout + 25
        invincibleTimer := 1
        messages := s.messages ++
          [⟨"HR Drone: unauthorized happiness detected.", 7⟩] } := by
  unfold updateHRDrone
  rw [h]
  simp only [Bool.false_eq_true, if_false]
  rw [if_pos (by simp only [h, ho, Bool.not_false, Bool.and_true])]
  rw [if_pos ht]
  rw [if_neg (by simp only [showMessage]; exact not_le.mpr hb)]
  simp [showMessage]

lemma updateHRDrone_eq_of_kill (h : s.gameOver = false)
    (ho : rectsOverlap s.player.toBox (moveDrone dt s.hrDrone).toBox = true)
    (ht : s.invincibleTimer ≤ 0) (hb : burnoutMax ≤ s.burnout + 25) :
    updateHRDrone dt s =
      { s with
        hrDrone := moveDrone dt s.hrDrone
        burnout := burnoutMax
        invincibleTimer := 1
        gameOver := true
        gameOverReason := "Burnout: you finally quit your job."
        messages := s.messages ++
          [⟨"HR Drone: unauthorized happiness detected.", 7⟩,
           ⟨"Game over. Refresh the page to try again.", 7⟩] } := by
  unfold updateHRDrone
  rw [h]
  simp only [Bool.false_eq_true, if_false]
  rw [if_pos (by simp only [h, ho, Bool.not_false, Bool.and_true])]
  rw [if_pos ht]
  rw [if_pos (by simp only [showMessage]; exact hb)]
  simp [showMessage, triggerGameOver]

end DroneBranches

section TickLemmas

variable (H W dt : ℚ) (k : Keys) (s : GameState)

lemma update_unfold_running (h : s.gameOver = false) :
    update H W dt k s =
      updateMessages dt (updateCamera W (updateTimers dt (updatePickups
        (updateHRDrone dt { s with player := stepPlayer H dt k s.player })))) := by
  simp [update, h, updatePlayer_eq]

lemma update_tick_damage (h : s.gameOver = false)
    (ho : tickCheckOverlap H dt k s = true)
    (ht : s.invincibleTimer ≤ 0) (hb : s.burnout + 25 < burnoutMax) :
    (update H W dt k s).burnout = s.burnout + 25 ∧
    (update H W dt k s).invincibleTimer = 1 - dt ∧
    (update H W dt k s).gameOver = false := by
  rw [update_unfold_running H W dt k s h]
  rw [updateHRDrone_eq_of_damage dt { s with player := stepPlayer H dt k s.player }
    h ho ht hb]
  refine ⟨by simp, ?_, by simp [h]⟩
  simp [updateTimers]

lemma update_tick_grace (h : s.gameOver = false) (ht : 0 < s.invincibleTimer) :
    (update H W dt k s).burnout = s.burnout ∧
    (update H W dt k s).invincibleTimer = s.invincibleTimer - dt ∧
    (update H W dt k s).gameOver = false := by
  rw [update_unfold_running H W dt k s h]
  rw [updateHRDrone_eq_of_grace dt { s with player := stepPlayer H dt k s.player }
    h ht]
  refine ⟨by simp, ?_, by simp [h]⟩
  simp [updateTimers, ht]

end TickLemmas

end Salaryman

namespace Salaryman

lemma updates_cons (H W : ℚ) (t : ℚ × Keys) (ts : List (ℚ × Keys)) (s : GameState) :
    updates H W (t :: ts) s = updates H W ts (update H W t.1 t.2 s) := rfl

lemma updates_frozen (H W : ℚ) (ts : List (ℚ × Keys)) :
    ∀ s : GameState, s.gameOver = true →
      (updates H W ts s).gameOver = true ∧ (updates H W ts s).burnout = s.burnout := by
  induction ts with
  | nil => exact fun s hg => ⟨hg, rfl⟩
  | cons t ts ih =>
    intro s hg
    have hfr := update_frozen H W t.1 t.2 s hg
    have h1 : (update H W t.1 t.2 s).gameOver = true := by rw [hfr]; simpa using hg
    have h2 : (update H W t.1 t.2 s).burnout = s.burnout := by rw [hfr]; simp
    have h3 := ih (update H W t.1 t.2 s) h1
    rw [updates_cons]
    exact ⟨h3.1, by rw [h3.2, h2]⟩

lemma update_tick_no_overlap (H W dt : ℚ) (k : Keys) (s : GameState)
    (h : s.gameOver = false) (ho : tickCheckOverlap H dt k s = false) :
    (update H W dt k s).burnout = s.burnout ∧
    (update H W dt k s).gameOver = false := by
  rw [update_unfold_running H W dt k s h]
  rw [updateHRDrone_eq_of_no_overlap dt
    { s with player := stepPlayer H dt k s.player } h ho]
  exact ⟨by simp, by simp [h]⟩

/-- Claim C5: once `burnout` reaches `burnoutMax` the tick that does it
clamps `burnout` to exactly `burnoutMax` and sets the game state to
GameOver, and from any GameOver state every further tick sequence leaves
the state GameOver with `burnout` unchanged (hence at `burnoutMax`). -/
theorem burnout_terminal_gameover (H W dt : ℚ) (k : Keys) (s : GameState) :
    (s.gameOver = false → s.burnout < burnoutMax →
      burnoutMax ≤ (update H W dt k s).burnout →
      (update H W dt k s).gameOver = true ∧
      (update H W dt k s).burnout = burnoutMax) ∧
    (s.gameOver = true → ∀ ts : List (ℚ × Keys),
      (updates H W ts s).gameOver = true ∧
      (updates H W ts s).burnout = s.burnout) := by
  constructor
  · intro hg hlt hge
    by_cases htm : s.invincibleTimer ≤ 0
    · by_cases hov : tickCheckOverlap H dt k s = true
      · by_cases hbb : s.burnout + 25 < burnoutMax
        · exfalso
          have hd := update_tick_damage H W dt k s hg hov htm hbb
          rw [hd.1] at hge
          linarith
        · push_neg at hbb
          have hk := updateHRDrone_eq_of_kill dt
            { s with player := stepPlayer H dt k s.player } hg hov htm hbb
          rw [update_unfold_running H W dt k s hg, hk]
          exact ⟨by simp, by simp⟩
      · have hov' : tickCheckOverlap H dt k s = false := by
          simpa using hov
        exfalso
        have hd := update_tick_no_overlap H W dt k s hg hov'
        rw [hd.1] at hge
        linarith
    · push_neg at htm
      exfalso
      have hd := update_tick_grace H W dt k s hg htm
      rw [hd.1] at hge
      linarith
  · intro hg ts
    exact updates_frozen H W ts s hg

/-- Claim C4: with no grace active and `burnout = 0`, three consecutive
overlapping ticks of `dt = 0.5` (grace window 1 s) apply damage exactly
twice — on the first and third tick — so burnout ends at 50, not 75. -/
theorem damage_rate_limit_three_ticks (H W : ℚ) (k : Keys) (s : GameState)
    (hg : s.gameOver = false) (ht : s.invincibleTimer = 0) (hb : s.burnout = 0)
    (h1 : tickCheckOverlap H (1/2) k s = true)
    (h2 : tickCheckOverlap H (1/2) k (update H W (1/2) k s) = true)
    (h3 : tickCheckOverlap H (1/2) k
      (update H W (1/2) k (update H W (1/2) k s)) = true) :
    (update H W (1/2) k s).burnout = 25 ∧
    (update H W (1/2) k (update H W (1/2) k s)).burnout = 25 ∧
    (update H W (1/2) k (update H W (1/2) k (update H W (1/2) k s))).burnout
      = 50 := by
  have t1 := update_tick_damage H W (1/2) k s hg h1 (le_of_eq ht)
    (by rw [hb]; norm_num [burnoutMax])
  have hb1 : (update H W (1/2) k s).burnout = 25 := by rw [t1.1, hb]; norm_num
  have ht1 : (update H W (1/2) k s).invincibleTimer = 1/2 := by
    rw [t1.2.1]; norm_num
  have t2 := update_tick_grace H W (1/2) k (update H W (1/2) k s) t1.2.2
    (by rw [ht1]; norm_num)
  have hb2 : (update H W (1/2) k (update H W (1/2) k s)).burnout = 25 := by
    rw [t2.1, hb1]
  have ht2 : (update H W (1/2) k (update H W (1/2) k s)).invincibleTimer = 0 := by
    rw [t2.2.1, ht1]; norm_num
  have t3 := update_tick_damage H W (1/2) k
    (update H W (1/2) k (update H W (1/2) k s)) t2.2.2 h3 (le_of_eq ht2)
    (by rw [hb2]; norm_num [burnoutMax])
  exact ⟨hb1, hb2, by rw [t3.1, hb2]; norm_num⟩

end Salaryman

namespace Salaryman

/-- Instantiation of claim C5: one tick takes `killState` from
`burnout = 75` to the clamped maximum and into GameOver. -/
theorem burnout_terminal_gameover_witness :
    killState.gameOver = false ∧ killState.burnout < burnoutMax ∧
    ((update 600 800 (1/2) noKeys killState).gameOver = true ∧
     (update 600 800 (1/2) noKeys killState).burnout = burnoutMax) :=
  ⟨rfl, by norm_num [killState, burnoutMax],
   (burnout_terminal_gameover 600 800 (1/2) noKeys killState).1 rfl
     (by norm_num [killState, burnoutMax])
     (by norm_num [update, updatePlayer, stepPlayer, updateHRDrone, moveDrone,
       updatePickups, collectMoney, updateTimers, updateCamera, cameraOf,
       updateMessages, stepMessages, rectsOverlap, showMessage, triggerGameOver,
       Player.toBox, Pickup.toBox, Hazard.toBox, killState, world, gravity,
       groundHeight, burnoutMax, noKeys])⟩

/-- Instantiation of claim C4 on `rateState`: damage on ticks 1 and 3
only, burnout 25, 25, 50. -/
theorem damage_rate_limit_three_ticks_witness :
    (tickCheckOverlap 600 (1/2) noKeys rateState = true) ∧
    ((update 600 800 (1/2) noKeys rateState).burnout = 25 ∧
     (update 600 800 (1/2) noKeys
       (update 600 800 (1/2) noKeys rateState)).burnout = 25 ∧
     (update 600 800 (1/2) noKeys (update 600 800 (1/2) noKeys
       (update 600 800 (1/2) noKeys rateState))).burnout = 50) :=
  ⟨by norm_num [tickCheckOverlap, stepPlayer, moveDrone, rectsOverlap,
     Player.toBox, Hazard.toBox, rateState, world, gravity, groundHeight, noKeys],
   damage_rate_limit_three_ticks 600 800 noKeys rateState rfl rfl rfl
     (by norm_num [tickCheckOverlap, stepPlayer, moveDrone, rectsOverlap,
       Player.toBox, Hazard.toBox, rateState, world, gravity, groundHeight, noKeys])
     (by norm_num [tickCheckOverlap, update, updatePlayer, stepPlayer,
       updateHRDrone, moveDrone, updatePickups, collectMoney, updateTimers,
       updateCamera, cameraOf, updateMessages, stepMessages, rectsOverlap,
       showMessage, triggerGameOver, Player.toBox, Pickup.toBox, Hazard.toBox,
       rateState, world, gravity, groundHeight, burnoutMax, noKeys])
     (by norm_num [tickCheckOverlap, update, updatePlayer, stepPlayer,
       updateHRDrone, moveDrone, updatePickups, collectMoney, updateTimers,
       updateCamera, cameraOf, updateMessages, stepMessages, rectsOverlap,
       showMessage, triggerGameOver, Player.toBox, Pickup.toBox, Hazard.toBox,
       rateState, world, gravity, groundHeight, burnoutMax, noKeys])⟩

end Salaryman

namespace Salaryman

/-- Claim C3 counterexample: from the initial state, a jump tick with
`dt = 0.016` leaves `vy = jumpForce + gravity*dt = -718`, NOT
`vy = jumpForce = -750` — gravity accrues within the jump tick itself. -/
theorem jump_tick_counterexample :
    (initState 600).player.onGround = true ∧
    (initState 600).gameOver = false ∧
    (update 600 800 (2/125) ⟨false, false, true⟩ (initState 600)).player.vy ≠
      (initState 600).player.jumpForce ∧
    (update 600 800 (2/125) ⟨false, false, true⟩ (initState 600)).player.vy =
      -718 ∧
    (update 600 800 (2/125) ⟨false, false, true⟩ (initState 600)).player.onGround
      = false := by
  refine ⟨rfl, rfl, ?_, ?_, ?_⟩ <;>
    norm_num [update, updatePlayer, stepPlayer, updateHRDrone, moveDrone,
      updatePickups, collectMoney, updateTimers, updateCamera, cameraOf,
      updateMessages, stepMessages, rectsOverlap, showMessage, triggerGameOver,
      Player.toBox, Pickup.toBox, Hazard.toBox, initState, initPlayer,
      initCoffee, initMoney, initHRDrone, world, gravity, groundHeight,
      burnoutMax]

/-- Claim C3 (amended): a jump tick with `dt = 0.016` sets
`vy = jumpForce + gravity*dt` (gravity accrues within the jump tick, not
starting only next tick) and clears `onGround`, provided the integrated
position stays at or above the floor line. -/
theorem jump_tick_velocity (H W : ℚ) (k : Keys) (s : GameState)
    (hg : s.gameOver = false) (hog : s.player.onGround = true)
    (hj : k.jump = true)
    (hfloor : s.player.y + (s.player.jumpForce + gravity * (2/125)) * (2/125) ≤
      H - groundHeight - s.player.height) :
    (update H W (2/125) k s).player.vy =
      s.player.jumpForce + gravity * (2/125) ∧
    (update H W (2/125) k s).player.onGround = false := by
  rw [update_player_eq H W (2/125) k s hg]
  unfold stepPlayer
  dsimp only
  simp only [hj, hog, Bool.and_self, if_true]
  rw [if_neg (not_lt.mpr hfloor)]
  exact ⟨rfl, rfl⟩

/-- Instantiation of the amended claim C3 at the initial state. -/
theorem jump_tick_velocity_witness :
    (initState 600).gameOver = false ∧ (initState 600).player.onGround = true ∧
    ((update 600 800 (2/125) ⟨false, false, true⟩ (initState 600)).player.vy =
      (initState 600).player.jumpForce + gravity * (2/125) ∧
     (update 600 800 (2/125) ⟨false, false, true⟩
       (initState 600)).player.onGround = false) :=
  ⟨rfl, rfl,
   jump_tick_velocity 600 800 ⟨false, false, true⟩ (initState 600) rfl rfl rfl
     (by norm_num [initState, initPlayer, gravity, groundHeight])⟩

end Salaryman

namespace Salaryman

section Bounds

variable (H W dt : ℚ) (k : Keys) (s : GameState)

lemma stepPlayer_width (p : Player) : (stepPlayer H dt k p).width = p.width := by
  unfold stepPlayer
  dsimp only
  split_ifs <;> rfl

lemma stepPlayer_x_bounds (p : Player) (hw : p.width ≤ world.width) :
    0 ≤ (stepPlayer H dt k p).x ∧
    (stepPlayer H dt k p).x ≤ world.width - p.width := by
  unfold stepPlayer
  dsimp only
  split_ifs <;> constructor <;> dsimp only <;> linarith

lemma moveDrone_leftBound (h : Hazard) : (moveDrone dt h).leftBound = h.leftBound := rfl

lemma moveDrone_rightBound (h : Hazard) : (moveDrone dt h).rightBound = h.rightBound := rfl

lemma moveDrone_width (h : Hazard) : (moveDrone dt h).width = h.width := rfl

lemma moveDrone_x_bounds (h : Hazard) (hw : h.leftBound + h.width ≤ h.rightBound)
    (hx : h.leftBound ≤ h.x ∧ h.x ≤ h.rightBound - h.width) :
    h.leftBound ≤ (moveDrone dt h).x ∧
    (moveDrone dt h).x ≤ h.rightBound - h.width := by
  unfold moveDrone
  dsimp only
  split_ifs <;> constructor <;> dsimp only <;> linarith

lemma update_player_width : (update H W dt k s).player.width = s.player.width := by
  by_cases h : s.gameOver = true
  · rw [update_frozen H W dt k s h]; simp
  · have h' : s.gameOver = false := by simpa using h
    rw [update_player_eq H W dt k s h', stepPlayer_width]

lemma update_drone_frame : (update H W dt k s).hrDrone.leftBound = s.hrDrone.leftBound ∧
    (update H W dt k s).hrDrone.rightBound = s.hrDrone.rightBound ∧
    (update H W dt k s).hrDrone.width = s.hrDrone.width := by
  by_cases h : s.gameOver = true
  · rw [update_frozen H W dt k s h]; simp
  · have h' : s.gameOver = false := by simpa using h
    rw [update_hrDrone_eq H W dt k s h']
    exact ⟨moveDrone_leftBound dt _, moveDrone_rightBound dt _, moveDrone_width dt _⟩

lemma update_step_bounds
    (hpw : s.player.width ≤ world.width)
    (hhw : s.hrDrone.leftBound + s.hrDrone.width ≤ s.hrDrone.rightBound)
    (hp : 0 ≤ s.player.x ∧ s.player.x ≤ world.width - s.player.width)
    (hh : s.hrDrone.leftBound ≤ s.hrDrone.x ∧
      s.hrDrone.x ≤ s.hrDrone.rightBound - s.hrDrone.width) :
    (0 ≤ (update H W dt k s).player.x ∧
     (update H W dt k s).player.x ≤ world.width - s.player.width) ∧
    (s.hrDrone.leftBound ≤ (update H W dt k s).hrDrone.x ∧
     (update H W dt k s).hrDrone.x ≤ s.hrDrone.rightBound - s.hrDrone.width) := by
  by_cases h : s.gameOver = true
  · rw [update_frozen H W dt k s h]
    simp only [updateMessages_player, updateCamera_player,
      updateMessages_hrDrone, updateCamera_hrDrone]
    exact ⟨hp, hh⟩
  · have h' : s.gameOver = false := by simpa using h
    constructor
    · rw [update_player_eq H W dt k s h']
      exact stepPlayer_x_bounds H dt k s.player hpw
    · rw [update_hrDrone_eq H W dt k s h']
      exact moveDrone_x_bounds dt s.hrDrone hhw hh

end Bounds

end Salaryman

namespace Salaryman

/-- Claim C6: under the structural constraints of the configuration
(`player.width ≤ world.width`, `leftBound + width ≤ rightBound`), every
tick sequence with nonnegative `dt`s keeps `player.x` in
`[0, world.width - player.width]` and `hrDrone.x` in
`[leftBound, rightBound - width]`, starting from any state inside those
bounds. -/
theorem bounds_invariant (H W : ℚ) (ts : List (ℚ × Keys))
    (hts : ∀ t ∈ ts, 0 ≤ t.1) :
    ∀ s : GameState,
      s.player.width ≤ world.width →
      s.hrDrone.leftBound + s.hrDrone.width ≤ s.hrDrone.rightBound →
      0 ≤ s.player.x ∧ s.player.x ≤ world.width - s.player.width →
      (s.hrDrone.leftBound ≤ s.hrDrone.x ∧
        s.hrDrone.x ≤ s.hrDrone.rightBound - s.hrDrone.width) →
      (0 ≤ (updates H W ts s).player.x ∧
       (updates H W ts s).player.x ≤
         world.width - (updates H W ts s).player.width) ∧
      ((updates H W ts s).hrDrone.leftBound ≤ (updates H W ts s).hrDrone.x ∧
       (updates H W ts s).hrDrone.x ≤
         (updates H W ts s).hrDrone.rightBound -
           (updates H W ts s).hrDrone.width) := by
  induction ts with
  | nil => exact fun s hpw hhw hp hh => ⟨hp, hh⟩
  | cons t ts ih =>
    intro s hpw hhw hp hh
    have hts' : ∀ u ∈ ts, 0 ≤ u.1 := fun u hu => hts u (by simp [hu])
    have hstep := update_step_bounds H W t.1 t.2 s hpw hhw hp hh
    have hw' := update_player_width H W t.1 t.2 s
    have hdf := update_drone_frame H W t.1 t.2 s
    rw [updates_cons]
    exact (ih hts') (update H W t.1 t.2 s)
      (by rw [hw']; exact hpw)
      (by rw [hdf.1, hdf.2.1, hdf.2.2]; exact hhw)
      (by rw [hw']; exact hstep.1)
      (by rw [hdf.1, hdf.2.1, hdf.2.2]; exact hstep.2)

/-- Instantiation of claim C6: two ticks from the initial configuration
stay inside the world and patrol bounds. -/
theorem bounds_invariant_witness :
    ((0:ℚ) ≤ (updates 600 800 [(1/2, ⟨true, false, false⟩), (1/2, noKeys)]
        (initState 600)).player.x ∧
     (updates 600 800 [(1/2, ⟨true, false, false⟩), (1/2, noKeys)]
        (initState 600)).player.x ≤
       world.width - (updates 600 800 [(1/2, ⟨true, false, false⟩), (1/2, noKeys)]
        (initState 600)).player.width) ∧
    ((updates 600 800 [(1/2, ⟨true, false, false⟩), (1/2, noKeys)]
        (initState 600)).hrDrone.leftBound ≤
       (updates 600 800 [(1/2, ⟨true, false, false⟩), (1/2, noKeys)]
        (initState 600)).hrDrone.x ∧
     (updates 600 800 [(1/2, ⟨true, false, false⟩), (1/2, noKeys)]
        (initState 600)).hrDrone.x ≤
       (updates 600 800 [(1/2, ⟨true, false, false⟩), (1/2, noKeys)]
        (initState 600)).hrDrone.rightBound -
       (updates 600 800 [(1/2, ⟨true, false, false⟩), (1/2, noKeys)]
        (initState 600)).hrDrone.width) :=
  bounds_invariant 600 800 [(1/2, ⟨true, false, false⟩), (1/2, noKeys)]
    (by norm_num) (initState 600)
    (by norm_num [initState, initPlayer, world])
    (by norm_num [initState, initHRDrone])
    (by norm_num [initState, initPlayer, world])
    (by norm_num [initState, initHRDrone])

end Salaryman

namespace Salaryman

lemma stepMessages_append (dt : ℚ) (xs ys : List Msg) :
    stepMessages dt (xs ++ ys) = stepMessages dt xs ++ stepMessages dt ys := by
  simp [stepMessages, List.filter_append]

lemma iterMessages_append (ds : List ℚ) :
    ∀ xs ys : List Msg,
      iterMessages ds (xs ++ ys) = iterMessages ds xs ++ iterMessages ds ys := by
  induction ds with
  | nil => intro xs ys; rfl
  | cons d ds ih =>
    intro xs ys
    show iterMessages ds (stepMessages d (xs ++ ys)) = _
    rw [stepMessages_append, ih]
    rfl

lemma iterMessages_nil_msgs (ds : List ℚ) : iterMessages ds [] = [] := by
  induction ds with
  | nil => rfl
  | cons d ds ih =>
    show iterMessages ds (stepMessages d []) = []
    rw [show stepMessages d [] = [] from rfl, ih]

lemma iterMessages_single (txt : String) (ds : List ℚ) (hds : ∀ d ∈ ds, 0 ≤ d) :
    ∀ r : ℚ, 0 < r →
      iterMessages ds [⟨txt, r⟩] =
        if ds.sum < r then [⟨txt, r - ds.sum⟩] else [] := by
  induction ds with
  | nil =>
    intro r hr
    simp [iterMessages, hr]
  | cons d ds ih =>
    intro r hr
    have hd : 0 ≤ d := hds d (by simp)
    have hrest : ∀ x ∈ ds, 0 ≤ x := fun x hx => hds x (by simp [hx])
    have hsum : 0 ≤ ds.sum := List.sum_nonneg hrest
    show iterMessages ds (stepMessages d [⟨txt, r⟩]) = _
    by_cases hpos : 0 < r - d
    · have hkeep : ¬(r - d ≤ 0) := not_le.mpr hpos
      have hstep : stepMessages d [⟨txt, r⟩] = [⟨txt, r - d⟩] := by
        simp [stepMessages, hkeep]
      rw [hstep, ih hrest (r - d) hpos]
      rw [List.sum_cons]
      by_cases hlt : ds.sum < r - d
      · rw [if_pos hlt, if_pos (by linarith)]
        congr 1
        ring_nf
      · rw [if_neg hlt, if_neg (by intro hcon; exact hlt (by linarith))]
    · have hdrop : stepMessages d [⟨txt, r⟩] = [] := by
        simp [stepMessages]
        linarith
      rw [hdrop, iterMessages_nil_msgs]
      rw [List.sum_cons, if_neg (by intro hcon; linarith)]

/-- Claim C9: a message posted with the fixed 7-second duration survives
a sequence of ticks exactly while the summed `dt` stays below 7, is gone
as soon as the cumulative `dt` reaches 7, and the pruning pass preserves
the insertion order of the surviving neighbours. -/
theorem message_expiry (ds : List ℚ) (hds : ∀ d ∈ ds, 0 ≤ d)
    (pre post : List Msg) (txt : String) :
    iterMessages ds (pre ++ ⟨txt, 7⟩ :: post) =
      iterMessages ds pre ++
        (if ds.sum < 7 then [⟨txt, 7 - ds.sum⟩] else []) ++
      iterMessages ds post := by
  have h1 : pre ++ (⟨txt, (7:ℚ)⟩ : Msg) :: post = (pre ++ [⟨txt, 7⟩]) ++ post := by
    simp
  rw [h1, iterMessages_append, iterMessages_append,
    iterMessages_single txt ds hds 7 (by norm_num)]

/-- Instantiation of claim C9: after ticks of 4 s and 2 s a fresh message
survives with 1 s left in its slot; after a further 4 s tick it is gone
while a longer-lived neighbour survives in order. -/
theorem message_expiry_witness :
    (∀ d ∈ [(4:ℚ), 2], 0 ≤ d) ∧
    iterMessages [4, 2] ([⟨"a", 20⟩] ++ ⟨"m", 7⟩ :: [⟨"b", 20⟩]) =
      iterMessages [4, 2] [⟨"a", 20⟩] ++
        (if ([(4:ℚ), 2].sum < 7) then [⟨"m", 7 - [(4:ℚ), 2].sum⟩] else []) ++
      iterMessages [4, 2] [⟨"b", 20⟩] :=
  ⟨by norm_num, message_expiry [4, 2] (by norm_num) [⟨"a", 20⟩] [⟨"b", 20⟩] "m"⟩

end Salaryman

namespace Salaryman

/-- Claim C10: the simplified variant `update` and the full variant
`updatePlayer` agree on the vertical player fields: from states with the
same `y`, `vy`, `onGround`, `height` and `jumpForce` (the shared
constants `gravity`, `groundHeight` and the viewport height `H` being
identical), one running tick produces the same `y`, `vy` and
`onGround`. -/
theorem variant_vertical_agreement (H W dt : ℚ) (k : Keys) (s : GameState)
    (t : Simple.State) (hg : s.gameOver = false)
    (hy : t.player.y = s.player.y) (hvy : t.player.vy = s.player.vy)
    (hog : t.player.onGround = s.player.onGround)
    (hh : t.player.height = s.player.height)
    (hjf : t.player.jumpForce = s.player.jumpForce) :
    (Simple.update W H dt k t).player.y = (updatePlayer H dt k s).player.y ∧
    (Simple.update W H dt k t).player.vy = (updatePlayer H dt k s).player.vy ∧
    (Simple.update W H dt k t).player.onGround =
      (updatePlayer H dt k s).player.onGround := by
  rw [updatePlayer_eq H dt k s hg]
  have hsu : (Simple.update W H dt k t).player = Simple.stepPlayer W H dt k t.player := rfl
  have hmp : ({ s with player := stepPlayer H dt k s.player } : GameState).player
      = stepPlayer H dt k s.player := rfl
  rw [hsu, hmp]
  unfold Simple.stepPlayer stepPlayer
  dsimp only
  rw [hy, hvy, hog, hh, hjf]
  rw [show Simple.gravity = gravity from rfl,
    show Simple.groundHeight = groundHeight from rfl]
  split_ifs <;> exact ⟨rfl, rfl, rfl⟩

/-- Instantiation of claim C10: a jump tick produces identical vertical
results in both variants. -/
theorem variant_vertical_agreement_witness :
    (initState 600).gameOver = false ∧
    ((Simple.update 800 600 (1/60) ⟨false, false, true⟩ simpleDemo).player.y =
      (updatePlayer 600 (1/60) ⟨false, false, true⟩ (initState 600)).player.y ∧
     (Simple.update 800 600 (1/60) ⟨false, false, true⟩ simpleDemo).player.vy =
      (updatePlayer 600 (1/60) ⟨false, false, true⟩ (initState 600)).player.vy ∧
     (Simple.update 800 600 (1/60) ⟨false, false, true⟩ simpleDemo).player.onGround =
      (updatePlayer 600 (1/60) ⟨false, false, true⟩ (initState 600)).player.onGround) :=
  ⟨rfl, variant_vertical_agreement 600 800 (1/60) ⟨false, false, true⟩
    (initState 600) simpleDemo rfl
    (by norm_num [simpleDemo, initState, initPlayer, groundHeight])
    (by norm_num [simpleDemo, initState, initPlayer])
    (by norm_num [simpleDemo, initState, initPlayer])
    (by norm_num [simpleDemo, initState, initPlayer])
    (by norm_num [simpleDemo, initState, initPlayer])⟩

end Salaryman
